import Mathlib

/-!
Shallow embedding of the task-mgmt repository's core: the Task lifecycle
(`tasks.go`-style file, src/unnamed/part_001), its upsert persistence, and the
layered configuration resolution (src/unnamed/part_000 and src/unnamed/part_002).

Go's `time.Time` is modelled as nanoseconds since the epoch together with a
flag recording whether the value's location is UTC; `time.Now()` and
`uuid.New()` are nondeterministic, so they are passed as explicit parameters.
The relational store behind the SQL queries is modelled as a keyed list of
rows, where a row holds exactly the fourteen columns written by
`Task.sqlArgs` (in `Task` field order).
-/

namespace TaskMgmt

/-- Go `time.Time`, reduced to what the code observes: an instant in
nanoseconds since the epoch, and whether its location is UTC.
The Go zero `time.Time` has a nil location, which means UTC. -/
structure GoTime where
  ns : Nat
  utc : Bool
deriving DecidableEq, Repr

def nsPerSecond : Nat := 1000000000

/-- Go `t.Round(time.Second)`: rounds to the nearest second, with halves
rounding away from zero (up, for the nonnegative instants modelled here).
The location is unchanged. -/
def GoTime.roundSecond (t : GoTime) : GoTime :=
  let r := t.ns % nsPerSecond
  if r * 2 < nsPerSecond then { t with ns := t.ns - r }
  else { t with ns := t.ns - r + nsPerSecond }

/-- Go `t.In(time.UTC)`: same instant, location set to UTC. -/
def GoTime.inUTC (t : GoTime) : GoTime :=
  { t with utc := true }

/-- Modelled from the spec: the spec's wording says `created`/`updated` are
"truncated to the second" — truncation discards the sub-second part (always
rounding down). Written from the spec's words, for comparison with the
source's `GoTime.roundSecond`. -/
def GoTime.truncateSecondSpec (t : GoTime) : GoTime :=
  { t with ns := t.ns - t.ns % nsPerSecond }

/-- The `Task` struct: field for field the Go struct in part_001. -/
structure Task where
  id : String
  created : GoTime
  updated : GoTime
  title : String
  request : Option GoTime
  success : Option GoTime
  fail : Option GoTime
  repoUrl : String
  repoCommit : String
  sourceUrl : String
  sourceChecksum : String
  resultUrl : String
  resultHash : String
  message : String
deriving DecidableEq, Repr

/-- The Go zero value `Task{}` (zero time.Time has a nil location = UTC). -/
def Task.zero : Task :=
  { id := ""
  , created := { ns := 0, utc := true }
  , updated := { ns := 0, utc := true }
  , title := ""
  , request := none
  , success := none
  , fail := none
  , repoUrl := ""
  , repoCommit := ""
  , sourceUrl := ""
  , sourceChecksum := ""
  , resultUrl := ""
  , resultHash := ""
  , message := "" }

/-- `Task.StatusString`: status derived from the three optional timestamps,
with the source's branch order. -/
def Task.StatusString (t : Task) : String :=
  if t.request.isNone then "ready"
  else if t.success.isSome then "finished"
  else if t.fail.isSome then "failed"
  else "running"

/-- `Task.NextActionUrl`: switch on `StatusString`. -/
def Task.NextActionUrl (t : Task) : Except String String :=
  if t.StatusString = "ready" then .ok ("/tasks/run/" ++ t.id)
  else if t.StatusString = "running" then .ok ("/tasks/cancel/" ++ t.id)
  else if t.StatusString = "failed" then .ok ("/tasks/run/" ++ t.id)
  else .error "no next action"

/-- `Task.NextActionTitle`: switch on `StatusString`. -/
def Task.NextActionTitle (t : Task) : Except String String :=
  if t.StatusString = "ready" then .ok "run"
  else if t.StatusString = "running" then .ok "cancel"
  else if t.StatusString = "failed" then .ok "re-run"
  else .error "no next action"

/-- Error sentinel: the only lookup error the embedded store produces is
`ErrNotFound` (Go's `sql.ErrNoRows` is already translated by `UnmarshalSQL`). -/
inductive DbError where
  | notFound
deriving DecidableEq, Repr

/-- The relational store behind the SQL queries: a keyed list of rows, one row
per task id. A row holds all fourteen columns written by `Task.sqlArgs`
(which are exactly the fields of `Task`, in order), so a row is represented
by a `Task` value. -/
def Store : Type := List (String × Task)

instance : DecidableEq Store := by
  unfold Store
  infer_instance

/-- `db.QueryRow(qTaskReadById, id)`: the row keyed by `id`, when present. -/
def Store.findRow (db : Store) (id : String) : Option Task :=
  (List.find? (fun p => p.1 = id) db).map (fun p => p.2)

/-- `db.Exec(qTaskInsert, ...)`: add a row keyed by the task's id. -/
def Store.insertRow (db : Store) (id : String) (row : Task) : Store :=
  (id, row) :: db

/-- `db.Exec(qTaskUpdate, ...)`: overwrite the row keyed by the task's id. -/
def Store.updateRow (db : Store) (id : String) (row : Task) : Store :=
  List.map (fun p => if p.1 = id then (id, row) else p) db

/-- `Task.UnmarshalSQL`: scan the row's fourteen columns and rebuild the
receiver. The Go struct literal omits `Message` (the scanned `message`
column is discarded), so `message` is left at its zero value `""`. -/
def Task.UnmarshalSQL (row : Task) : Task :=
  { id := row.id
  , created := row.created
  , updated := row.updated
  , title := row.title
  , request := row.request
  , success := row.success
  , fail := row.fail
  , repoUrl := row.repoUrl
  , repoCommit := row.repoCommit
  , sourceUrl := row.sourceUrl
  , sourceChecksum := row.sourceChecksum
  , resultUrl := row.resultUrl
  , resultHash := row.resultHash
  , message := "" }

/-- `Task.Read`: `ErrNotFound` for an empty id or a missing row; otherwise
`UnmarshalSQL` on the row found by `qTaskReadById`. Returns the task the
receiver pointer holds afterwards. -/
def Task.Read (t : Task) (db : Store) : Except DbError Task :=
  if t.id = "" then .error .notFound
  else
    match db.findRow t.id with
    | none => .error .notFound
    | some row => .ok (Task.UnmarshalSQL row)

/-- `Task.Save`: read-then-decide upsert. `uuid.New()` and `time.Now()` are
nondeterministic, so the fresh identifier `freshId` and the current instant
`now` are parameters. Returns the receiver's state after the call and the
new store. In the embedded store a lookup can only fail with `ErrNotFound`,
so the error-propagation branch of the Go code has no case here, and
`db.Exec` itself does not fail. -/
def Task.Save (t : Task) (db : Store) (freshId : String) (now : GoTime) :
    Task × Store :=
  match Task.Read { Task.zero with id := t.id } db with
  | .error .notFound =>
      let t' := { t with
        id := freshId
      , created := (GoTime.roundSecond now).inUTC
      , updated := (GoTime.roundSecond now).inUTC }
      (t', db.insertRow t'.id t')
  | .ok _ =>
      let t' := { t with updated := (GoTime.roundSecond now).inUTC }
      (t', db.updateRow t'.id t')

/-- `Task.Run`: set `request = now`, clear `fail` and `success`, send the
task-requested email, then save. The collaborator's outcome is the parameter
`emailErr` (`none` = success); `time.Now()` inside `Run` and the one inside
`Save` are distinct instants `now` and `nowS`. Returns the receiver's state,
the store, and the returned error. -/
def Task.Run (t : Task) (db : Store) (emailErr : Option String)
    (freshId : String) (now nowS : GoTime) : Task × Store × Option String :=
  let t1 := { t with request := some now, fail := none, success := none }
  match emailErr with
  | some e => (t1, db, some e)
  | none =>
      let r := t1.Save db freshId nowS
      (r.1, r.2, none)

/-- `Task.Cancel`: set `fail = now`, clear `success`, set the cancelled
message, send the task-cancelled email, then save. -/
def Task.Cancel (t : Task) (db : Store) (emailErr : Option String)
    (freshId : String) (now nowS : GoTime) : Task × Store × Option String :=
  let t1 := { t with fail := some now, success := none, message := "Task Cancelled" }
  match emailErr with
  | some e => (t1, db, some e)
  | none =>
      let r := t1.Save db freshId nowS
      (r.1, r.2, none)

/-- `Task.Errored`: set `fail = now` and the message, then save (no email). -/
def Task.Errored (t : Task) (db : Store) (msg : String)
    (freshId : String) (now nowS : GoTime) : Task × Store :=
  Task.Save { t with fail := some now, message := msg } db freshId nowS

/-- `Task.Succeeded`: set `success = now`, the result url and hash, then save
(no email). -/
def Task.Succeeded (t : Task) (db : Store) (url hash : String)
    (freshId : String) (now nowS : GoTime) : Task × Store :=
  Task.Save { t with success := some now, resultUrl := url, resultHash := hash }
    db freshId nowS

/-- One lifecycle operation together with its nondeterministic inputs
(collaborator outcome, fresh uuid, the two `time.Now()` instants). -/
inductive LifecycleOp where
  | run (emailErr : Option String) (freshId : String) (now nowS : GoTime)
  | cancel (emailErr : Option String) (freshId : String) (now nowS : GoTime)
  | errored (msg freshId : String) (now nowS : GoTime)
  | succeeded (url hash freshId : String) (now nowS : GoTime)

/-- Apply one lifecycle operation to an in-memory task and the store. -/
def applyOp (op : LifecycleOp) (p : Task × Store) : Task × Store :=
  match op with
  | .run e f now nowS =>
      let r := Task.Run p.1 p.2 e f now nowS
      (r.1, r.2.1)
  | .cancel e f now nowS =>
      let r := Task.Cancel p.1 p.2 e f now nowS
      (r.1, r.2.1)
  | .errored msg f now nowS => Task.Errored p.1 p.2 msg f now nowS
  | .succeeded url hash f now nowS => Task.Succeeded p.1 p.2 url hash f now nowS

/-- Apply a sequence of lifecycle operations, left to right. -/
def applyOps (ops : List LifecycleOp) (p : Task × Store) : Task × Store :=
  ops.foldl (fun q op => applyOp op q) p

/-- Is the operation a Run or a Cancel? -/
def LifecycleOp.isRunOrCancel : LifecycleOp → Bool
  | .run _ _ _ _ => true
  | .cancel _ _ _ _ => true
  | .errored _ _ _ _ => false
  | .succeeded _ _ _ _ _ => false

/-- The process environment as observed through `os.Getenv`: a total map from
variable names to values, where an unset variable reads as `""`. -/
def Env : Type := String → String

/-- `readEnvString`: the environment value when non-empty, the default
otherwise. -/
def readEnvString (env : Env) (key d : String) : String :=
  if env key ≠ "" then env key else d

/-- `readEnvBool`: when the environment value is non-empty, compare it against
the three exact literals of the source; otherwise the default. -/
def readEnvBool (env : Env) (key : String) (d : Bool) : Bool :=
  if env key ≠ "" then
    (env key == "true") || (env key == "TRUE") || (env key == "t")
  else d

/-- `readEnvStringSlice`: when the environment value is non-empty, split it on
commas; otherwise the default. -/
def readEnvStringSlice (env : Env) (key : String) (d : List String) :
    List String :=
  if env key ≠ "" then (env key).splitOn "," else d

/-- `requireConfigStrings`: the first missing key of the given entry sequence
wins. The Go source iterates a map, whose iteration order the runtime
randomizes; callers therefore either pass the literal's textual order (the
deterministic `initConfig`) or receive the iteration sequence as an explicit
nondeterministic input (`initConfigOrdered`), quantified over all
permutations of the map's entries. -/
def requireConfigStrings (values : List (String × String)) : Option String :=
  match values with
  | [] => none
  | (key, value) :: rest =>
      if value = "" then some (key ++ " env variable or config key must be set")
      else requireConfigStrings rest

namespace ConfigJson

/-- The `config` struct of the config.json-based variant (part_000), minus
`TemplateData` (a `map[string]interface{}` that no configuration source or
validation step of `initConfig` touches). -/
structure config where
  port : String
  urlRoot : String
  postgresDbUrl : String
  publicKey : String
  tls : Bool
  proxyForceHttps : Bool
  postmarkKey : String
  emailNotificationRecipients : List String
  githubRepoOwner : String
  githubRepoName : String
  identityServerUrl : String
  userCookieKey : String
  certbotResponse : String
deriving DecidableEq, Repr

/-- The override block of `initConfig`: each field is replaced by its
environment variable when that variable is non-empty. -/
def applyEnv (env : Env) (cfg : config) : config :=
  { cfg with
    port := readEnvString env "PORT" cfg.port
  , urlRoot := readEnvString env "URL_ROOT" cfg.urlRoot
  , publicKey := readEnvString env "PUBLIC_KEY" cfg.publicKey
  , tls := readEnvBool env "TLS" cfg.tls
  , postgresDbUrl := readEnvString env "POSTGRES_DB_URL" cfg.postgresDbUrl
  , certbotResponse := readEnvString env "CERTBOT_RESPONSE" cfg.certbotResponse
  , githubRepoName := readEnvString env "GITHUB_REPO_NAME" cfg.githubRepoName
  , githubRepoOwner := readEnvString env "GITHUB_REPO_OWNER" cfg.githubRepoOwner
  , postmarkKey := readEnvString env "POSTMARK_KEY" cfg.postmarkKey
  , userCookieKey := readEnvString env "USER_COOKIE_KEY" cfg.userCookieKey
  , identityServerUrl := readEnvString env "IDENTITY_SERVER_URL" cfg.identityServerUrl
  , emailNotificationRecipients :=
      readEnvStringSlice env "EMAIL_NOTIFICATION_RECIPIENTS" cfg.emailNotificationRecipients }

/-- `initConfig` of part_000 after the file layer: `fileCfg` is the struct
`loadConfigFile` produced (the mode file if it exists, else the default file,
else the zero struct — reading the filesystem is outside the embedding).
Environment overrides are applied, the port is defaulted, required strings
are checked. Go returns the struct and the error together, hence the pair. -/
def initConfig (env : Env) (fileCfg : config) : config × Option String :=
  let cfg := applyEnv env fileCfg
  let cfg := if cfg.port = "" then { cfg with port := "8080" } else cfg
  (cfg, requireConfigStrings
    [ ("PORT", cfg.port)
    , ("POSTGRES_DB_URL", cfg.postgresDbUrl)
    , ("GITHUB_REPO_OWNER", cfg.githubRepoOwner)
    , ("GITHUB_REPO_NAME", cfg.githubRepoName)
    , ("IDENTITY_SERVER_URL", cfg.identityServerUrl) ])

/-- The configuration `initConfig` builds before its validation step:
environment overrides applied, then the port defaulted. -/
def resolve (env : Env) (fileCfg : config) : config :=
  let cfg := applyEnv env fileCfg
  if cfg.port = "" then { cfg with port := "8080" } else cfg

/-- The entries of the map literal `initConfig` passes to
`requireConfigStrings`, in the literal's textual order. -/
def requiredEntries (env : Env) (fileCfg : config) : List (String × String) :=
  [ ("PORT", (resolve env fileCfg).port)
  , ("POSTGRES_DB_URL", (resolve env fileCfg).postgresDbUrl)
  , ("GITHUB_REPO_OWNER", (resolve env fileCfg).githubRepoOwner)
  , ("GITHUB_REPO_NAME", (resolve env fileCfg).githubRepoName)
  , ("IDENTITY_SERVER_URL", (resolve env fileCfg).identityServerUrl) ]

/-- `initConfig` with the runtime's map iteration made explicit: `order` is
the sequence in which the Go runtime enumerates the required-field map — a
nondeterministic input, legitimate exactly when it is a permutation of
`requiredEntries env fileCfg`. -/
def initConfigOrdered (env : Env) (fileCfg : config)
    (order : List (String × String)) : config × Option String :=
  (resolve env fileCfg, requireConfigStrings order)

end ConfigJson

namespace ConfigEnv

/-- The `config` struct of the .env-based variant (part_002). -/
structure config where
  port : String
  urlRoot : String
  rpcPort : String
  postgresDbUrl : String
  amqpUrl : String
  ipfsApiUrl : String
  redisUrl : String
  publicKey : String
  tls : Bool
  proxyForceHttps : Bool
  postmarkKey : String
  emailNotificationRecipients : List String
  certbotResponse : String
deriving DecidableEq, Repr

/-- `initConfig` of part_002 after the `conf.Load` layer: `loaded` is the
struct the external datatogether/config library filled from files and
environment (errors from it are only logged by the source, never returned).
The port is defaulted, then the two required strings are checked. -/
def initConfig (loaded : config) : config × Option String :=
  let cfg := if loaded.port = "" then { loaded with port := "8080" } else loaded
  (cfg, requireConfigStrings
    [ ("PORT", cfg.port)
    , ("POSTGRES_DB_URL", cfg.postgresDbUrl) ])

/-- The configuration `initConfig` builds before its validation step: the
loaded struct with the port defaulted. -/
def resolve (loaded : config) : config :=
  if loaded.port = "" then { loaded with port := "8080" } else loaded

/-- The entries of the map literal `initConfig` passes to
`requireConfigStrings`, in the literal's textual order. -/
def requiredEntries (loaded : config) : List (String × String) :=
  [ ("PORT", (resolve loaded).port)
  , ("POSTGRES_DB_URL", (resolve loaded).postgresDbUrl) ]

/-- `initConfig` with the runtime's map iteration made explicit: `order` is
the sequence in which the Go runtime enumerates the required-field map — a
nondeterministic input, legitimate exactly when it is a permutation of
`requiredEntries loaded`. -/
def initConfigOrdered (loaded : config) (order : List (String × String)) :
    config × Option String :=
  (resolve loaded, requireConfigStrings order)

end ConfigEnv

/-! Theorems. -/

/-- `Save` only rewrites `id`, `created` and `updated`: every other field of
the receiver is returned unchanged, on both the insert and the update
branch. -/
theorem Task.save_preserves (t : Task) (db : Store) (f : String) (n : GoTime) :
    (t.Save db f n).1.title = t.title ∧
    (t.Save db f n).1.request = t.request ∧
    (t.Save db f n).1.success = t.success ∧
    (t.Save db f n).1.fail = t.fail ∧
    (t.Save db f n).1.repoUrl = t.repoUrl ∧
    (t.Save db f n).1.repoCommit = t.repoCommit ∧
    (t.Save db f n).1.sourceUrl = t.sourceUrl ∧
    (t.Save db f n).1.sourceChecksum = t.sourceChecksum ∧
    (t.Save db f n).1.resultUrl = t.resultUrl ∧
    (t.Save db f n).1.resultHash = t.resultHash ∧
    (t.Save db f n).1.message = t.message := by
  cases hr : Task.Read { Task.zero with id := t.id } db with
  | error e => cases e; simp [Task.Save, hr]
  | ok v => simp [Task.Save, hr]

/-- C2: `StatusString` is a pure function of `request`, `success`, `fail`
(no other field influences it), and it matches the status table: `ready`
when `request` is nil, `running` when `request` is set and `success` and
`fail` are both nil, `finished` when `request` and `success` are set,
`failed` when `request` and `fail` are set and the task is not finished. -/
theorem statusString_pure_and_matches_table :
    (∀ t u : Task, t.request = u.request → t.success = u.success →
      t.fail = u.fail → t.StatusString = u.StatusString) ∧
    (∀ t : Task,
      (t.request = none → t.StatusString = "ready") ∧
      (t.request.isSome → t.success = none → t.fail = none →
        t.StatusString = "running") ∧
      (t.request.isSome → t.success.isSome → t.StatusString = "finished") ∧
      (t.request.isSome → t.fail.isSome → t.success = none →
        t.StatusString = "failed")) := by
  constructor
  · intro t u hr hs hf
    simp [Task.StatusString, hr, hs, hf]
  · intro t
    refine ⟨?_, ?_, ?_, ?_⟩ <;> intros <;>
      simp_all [Task.StatusString, Option.isSome_iff_ne_none]

/-- C2 witness: the table evaluated at two concrete tasks. -/
theorem statusString_pure_and_matches_table_witness :
    Task.StatusString Task.zero = "ready" ∧
    Task.StatusString { Task.zero with request := some { ns := 1, utc := true } }
      = "running" :=
  ⟨(statusString_pure_and_matches_table.2 Task.zero).1 rfl,
   (statusString_pure_and_matches_table.2 _).2.1 rfl rfl rfl⟩

/-- C9: `NextActionUrl` and `NextActionTitle` fail exactly when the derived
status is `finished`; for `ready`, `running` and `failed` they return the
run, cancel and re-run actions respectively, without error. -/
theorem nextAction_error_iff_finished :
    ∀ t : Task,
      ((∃ e, t.NextActionUrl = .error e) ↔ t.StatusString = "finished") ∧
      ((∃ e, t.NextActionTitle = .error e) ↔ t.StatusString = "finished") ∧
      (t.StatusString = "ready" →
        t.NextActionUrl = .ok ("/tasks/run/" ++ t.id) ∧
        t.NextActionTitle = .ok "run") ∧
      (t.StatusString = "running" →
        t.NextActionUrl = .ok ("/tasks/cancel/" ++ t.id) ∧
        t.NextActionTitle = .ok "cancel") ∧
      (t.StatusString = "failed" →
        t.NextActionUrl = .ok ("/tasks/run/" ++ t.id) ∧
        t.NextActionTitle = .ok "re-run") := by
  intro t
  cases hreq : t.request <;> cases hsuc : t.success <;> cases hfl : t.fail <;>
    simp [Task.StatusString, Task.NextActionUrl, Task.NextActionTitle,
      hreq, hsuc, hfl]

/-- C9 witness: a finished task has no next action; a ready task's next
action is run. -/
theorem nextAction_error_iff_finished_witness :
    (∃ e, Task.NextActionUrl
      { Task.zero with
        request := some { ns := 1, utc := true },
        success := some { ns := 2, utc := true } } = .error e) ∧
    Task.NextActionTitle Task.zero = .ok "run" :=
  ⟨(nextAction_error_iff_finished _).1.mpr rfl,
   ((nextAction_error_iff_finished Task.zero).2.2.1 rfl).2⟩

/-- C4: `Run` sets `request` to now and clears `fail` and `success` (in every
outcome of the notification collaborator); when the collaborator fails, the
error is returned unchanged and the store is untouched — nothing is
persisted. The same all-or-nothing behaviour holds for `Cancel`, which sets
`fail` to now and clears `success`. -/
theorem run_cancel_notification_all_or_nothing :
    ∀ (t : Task) (db : Store) (e freshId : String) (now nowS : GoTime),
      (Task.Run t db (some e) freshId now nowS).2.1 = db ∧
      (Task.Run t db (some e) freshId now nowS).2.2 = some e ∧
      (Task.Cancel t db (some e) freshId now nowS).2.1 = db ∧
      (Task.Cancel t db (some e) freshId now nowS).2.2 = some e ∧
      (∀ em : Option String,
        (Task.Run t db em freshId now nowS).1.request = some now ∧
        (Task.Run t db em freshId now nowS).1.fail = none ∧
        (Task.Run t db em freshId now nowS).1.success = none) ∧
      (∀ em : Option String,
        (Task.Cancel t db em freshId now nowS).1.fail = some now ∧
        (Task.Cancel t db em freshId now nowS).1.success = none) := by
  intro t db e freshId now nowS
  refine ⟨rfl, rfl, rfl, rfl, ?_, ?_⟩
  · intro em
    cases em with
    | some e' => exact ⟨rfl, rfl, rfl⟩
    | none =>
        have h := Task.save_preserves
          { t with request := some now, fail := none, success := none }
          db freshId nowS
        exact ⟨h.2.1, h.2.2.2.1, h.2.2.1⟩
  · intro em
    cases em with
    | some e' => exact ⟨rfl, rfl⟩
    | none =>
        have h := Task.save_preserves
          { t with fail := some now, success := none, message := "Task Cancelled" }
          db freshId nowS
        exact ⟨h.2.2.2.1, h.2.2.1⟩

/-- C5 counterexample: from the Ready state (the zero task), the lifecycle
sequence Errored-then-Succeeded reaches a task whose `success` and `fail`
timestamps are both set: `Succeeded` does not clear `fail`. -/
theorem succeeded_after_errored_sets_both :
    ((applyOps
        [ LifecycleOp.errored "boom" "f1" { ns := 5, utc := false } { ns := 6, utc := false }
        , LifecycleOp.succeeded "u" "h" "f2" { ns := 7, utc := false } { ns := 8, utc := false } ]
        (Task.zero, ([] : Store))).1.success.isSome = true) ∧
    ((applyOps
        [ LifecycleOp.errored "boom" "f1" { ns := 5, utc := false } { ns := 6, utc := false }
        , LifecycleOp.succeeded "u" "h" "f2" { ns := 7, utc := false } { ns := 8, utc := false } ]
        (Task.zero, ([] : Store))).1.fail.isSome = true) := by
  decide

/-- After a `run` or `cancel` step the in-memory task's `success` is nil:
both operations clear it and `Save` preserves it. -/
theorem applyOp_runCancel_success_none (op : LifecycleOp) (p : Task × Store)
    (hop : op.isRunOrCancel = true) : (applyOp op p).1.success = none := by
  cases op with
  | run e f now nowS =>
      cases e with
      | some e' => rfl
      | none =>
          exact (Task.save_preserves
            { p.1 with request := some now, fail := none, success := none }
            p.2 f nowS).2.2.1
  | cancel e f now nowS =>
      cases e with
      | some e' => rfl
      | none =>
          exact (Task.save_preserves
            { p.1 with fail := some now, success := none, message := "Task Cancelled" }
            p.2 f nowS).2.2.1
  | errored msg f now nowS => simp [LifecycleOp.isRunOrCancel] at hop
  | succeeded url hash f now nowS => simp [LifecycleOp.isRunOrCancel] at hop

/-- A sequence of `run`/`cancel` steps keeps `success` nil if it starts
nil. -/
theorem applyOps_runCancel_success_none (ops : List LifecycleOp) :
    ∀ p : Task × Store, (∀ op ∈ ops, op.isRunOrCancel = true) →
      p.1.success = none → (applyOps ops p).1.success = none := by
  induction ops with
  | nil => intro p _ h0; exact h0
  | cons op rest ih =>
      intro p hops _
      have hstep : (applyOp op p).1.success = none :=
        applyOp_runCancel_success_none op p (hops op (List.mem_cons_self op rest))
      have : applyOps (op :: rest) p = applyOps rest (applyOp op p) := rfl
      rw [this]
      exact ih (applyOp op p)
        (fun o ho => hops o (List.mem_cons_of_mem op ho)) hstep

/-- C5 amended: along any sequence of `Run` and `Cancel` operations starting
from the Ready state, `success` and `fail` are never both set (indeed
`success` stays nil); `Errored` and `Succeeded` do not clear the opposite
timestamp, so sequences using them can set both. -/
theorem runCancel_never_both_success_and_fail :
    ∀ (ops : List LifecycleOp) (t : Task) (db : Store),
      (∀ op ∈ ops, op.isRunOrCancel = true) →
      t.request = none → t.success = none → t.fail = none →
      ¬((applyOps ops (t, db)).1.success.isSome ∧
        (applyOps ops (t, db)).1.fail.isSome) := by
  intro ops t db hops hreq hsuc hfl hboth
  have hnone : (applyOps ops (t, db)).1.success = none :=
    applyOps_runCancel_success_none ops (t, db) hops hsuc
  rw [hnone] at hboth
  exact absurd hboth.1 (by simp)

/-- C5 amended witness: a concrete run-then-cancel sequence from the zero
(Ready) task never has both timestamps set. -/
theorem runCancel_never_both_success_and_fail_witness :
    ¬((applyOps
        [ LifecycleOp.run none "a" { ns := 1, utc := false } { ns := 2, utc := false }
        , LifecycleOp.cancel none "b" { ns := 3, utc := false } { ns := 4, utc := false } ]
        (Task.zero, ([] : Store))).1.success.isSome ∧
      (applyOps
        [ LifecycleOp.run none "a" { ns := 1, utc := false } { ns := 2, utc := false }
        , LifecycleOp.cancel none "b" { ns := 3, utc := false } { ns := 4, utc := false } ]
        (Task.zero, ([] : Store))).1.fail.isSome) :=
  runCancel_never_both_success_and_fail
    [ LifecycleOp.run none "a" { ns := 1, utc := false } { ns := 2, utc := false }
    , LifecycleOp.cancel none "b" { ns := 3, utc := false } { ns := 4, utc := false } ]
    Task.zero [] (by decide) rfl rfl rfl

/-- C3 counterexample: `Save` uses Go `Round(time.Second)`, which rounds to
the nearest second, not truncation. Inserting at instant 1.7s stores
`created` = 2s, while truncation to the second would give 1s. -/
theorem save_rounds_instead_of_truncating :
    (Task.Save Task.zero [] "id1" { ns := 1700000000, utc := false }).1.created ≠
      GoTime.inUTC (GoTime.truncateSecondSpec { ns := 1700000000, utc := false }) := by
  decide

/-- C3 amended: `Save` on a task whose id is empty or unknown to the store
takes the insert branch — it overwrites the id with the fresh identifier and
sets `created = updated = now()` rounded to the nearest second (halves up)
in UTC, then inserts the row; `Save` on a task whose id is known takes the
update branch — it rewrites `updated` (same rounding), leaves `created` and
the id unchanged, and overwrites the row. -/
theorem save_insert_vs_update_branch :
    ∀ (t : Task) (db : Store) (freshId : String) (now : GoTime),
      ((t.id = "" ∨ db.findRow t.id = none) →
        (Task.Save t db freshId now).1.id = freshId ∧
        (Task.Save t db freshId now).1.created = (GoTime.roundSecond now).inUTC ∧
        (Task.Save t db freshId now).1.updated = (GoTime.roundSecond now).inUTC ∧
        (Task.Save t db freshId now).2 =
          db.insertRow freshId (Task.Save t db freshId now).1) ∧
      (∀ row, t.id ≠ "" → db.findRow t.id = some row →
        (Task.Save t db freshId now).1.id = t.id ∧
        (Task.Save t db freshId now).1.created = t.created ∧
        (Task.Save t db freshId now).1.updated = (GoTime.roundSecond now).inUTC ∧
        (Task.Save t db freshId now).2 =
          db.updateRow t.id (Task.Save t db freshId now).1) := by
  intro t db freshId now
  constructor
  · intro hnew
    have hread : Task.Read { Task.zero with id := t.id } db = .error .notFound := by
      rcases hnew with hid | hrow
      · simp [Task.Read, hid]
      · simp [Task.Read, hrow]
    simp [Task.Save, hread]
  · intro row hid hrow
    have hread : Task.Read { Task.zero with id := t.id } db =
        .ok (Task.UnmarshalSQL row) := by
      simp [Task.Read, hid, hrow]
    simp [Task.Save, hread]

/-- C3 amended witness: an insert into the empty store at instant 1.7s
assigns the fresh id; an update of a known id leaves `created` untouched. -/
theorem save_insert_vs_update_branch_witness :
    ((Task.Save Task.zero [] "id1" { ns := 1700000000, utc := false }).1.id = "id1") ∧
    ((Task.Save { Task.zero with id := "a", created := { ns := 42, utc := true } }
        [("a", Task.zero)] "id2" { ns := 1700000000, utc := false }).1.created =
      { ns := 42, utc := true }) :=
  ⟨((save_insert_vs_update_branch Task.zero [] "id1"
      { ns := 1700000000, utc := false }).1 (Or.inl rfl)).1,
   ((save_insert_vs_update_branch
      { Task.zero with id := "a", created := { ns := 42, utc := true } }
      [("a", Task.zero)] "id2" { ns := 1700000000, utc := false }).2
      Task.zero (by decide) (by decide)).2.1⟩

/-- C1: `UnmarshalSQL` scans the `message` column but omits it from the
rebuilt struct, so the round-trip loses `message`. Saving a new task whose
message is "boom" and reading it back by the assigned id returns every field
of the saved task except `message`, which comes back empty. -/
theorem save_read_back_drops_message :
    (Task.Read { Task.zero with id := "id1" }
        (Task.Save { Task.zero with title := "t", message := "boom" } [] "id1"
          { ns := 1700000000, utc := false }).2 =
      .ok { (Task.Save { Task.zero with title := "t", message := "boom" } [] "id1"
          { ns := 1700000000, utc := false }).1 with message := "" }) ∧
    (Task.Save { Task.zero with title := "t", message := "boom" } [] "id1"
        { ns := 1700000000, utc := false }).1.message = "boom" :=
  ⟨rfl, rfl⟩

/-- C6 counterexample: boolean parsing is not case-insensitive. The case
variants "True" and "T" of the claimed literals yield false. -/
theorem readEnvBool_not_case_insensitive :
    readEnvBool (fun _ => "True") "TLS" false = false ∧
    readEnvBool (fun _ => "T") "TLS" false = false := by
  decide

/-- C6 amended: a non-empty environment value parses to true exactly when it
is one of the three exact literals "true", "TRUE", "t" (any other string,
including other case variants, yields false); an empty value keeps the
default. -/
theorem readEnvBool_exact_literals :
    ∀ (env : Env) (key : String) (d : Bool),
      (env key ≠ "" →
        (readEnvBool env key d = true ↔
          (env key = "true" ∨ env key = "TRUE" ∨ env key = "t"))) ∧
      (env key = "" → readEnvBool env key d = d) := by
  intro env key d
  constructor
  · intro hne
    simp [readEnvBool, hne, or_assoc]
  · intro he
    simp [readEnvBool, he]

/-- C6 amended witness: the exact literal "TRUE" parses to true. -/
theorem readEnvBool_exact_literals_witness :
    readEnvBool (fun _ => "TRUE") "TLS" false = true :=
  ((readEnvBool_exact_literals (fun _ => "TRUE") "TLS" false).1 (by decide)).mpr
    (Or.inr (Or.inl rfl))

/-- C7: in the config.json variant, every recognized field is overridden by
its environment variable exactly when that variable is non-empty, the file
(or zero) value being retained otherwise; in particular with `PORT` unset
and a mode file carrying port 9090 resolution yields 9090, and with
`PORT=7000` set it yields 7000. -/
theorem env_overrides_file_values :
    ∀ (env : Env) (fileCfg : ConfigJson.config),
      ((ConfigJson.applyEnv env fileCfg).port
          = readEnvString env "PORT" fileCfg.port ∧
        (ConfigJson.applyEnv env fileCfg).urlRoot
          = readEnvString env "URL_ROOT" fileCfg.urlRoot ∧
        (ConfigJson.applyEnv env fileCfg).publicKey
          = readEnvString env "PUBLIC_KEY" fileCfg.publicKey ∧
        (ConfigJson.applyEnv env fileCfg).tls
          = readEnvBool env "TLS" fileCfg.tls ∧
        (ConfigJson.applyEnv env fileCfg).postgresDbUrl
          = readEnvString env "POSTGRES_DB_URL" fileCfg.postgresDbUrl ∧
        (ConfigJson.applyEnv env fileCfg).certbotResponse
          = readEnvString env "CERTBOT_RESPONSE" fileCfg.certbotResponse ∧
        (ConfigJson.applyEnv env fileCfg).githubRepoName
          = readEnvString env "GITHUB_REPO_NAME" fileCfg.githubRepoName ∧
        (ConfigJson.applyEnv env fileCfg).githubRepoOwner
          = readEnvString env "GITHUB_REPO_OWNER" fileCfg.githubRepoOwner ∧
        (ConfigJson.applyEnv env fileCfg).postmarkKey
          = readEnvString env "POSTMARK_KEY" fileCfg.postmarkKey ∧
        (ConfigJson.applyEnv env fileCfg).userCookieKey
          = readEnvString env "USER_COOKIE_KEY" fileCfg.userCookieKey ∧
        (ConfigJson.applyEnv env fileCfg).identityServerUrl
          = readEnvString env "IDENTITY_SERVER_URL" fileCfg.identityServerUrl ∧
        (ConfigJson.applyEnv env fileCfg).emailNotificationRecipients
          = readEnvStringSlice env "EMAIL_NOTIFICATION_RECIPIENTS"
              fileCfg.emailNotificationRecipients) ∧
      (∀ key d : String, env key ≠ "" → readEnvString env key d = env key) ∧
      (∀ key d : String, env key = "" → readEnvString env key d = d) ∧
      (env "PORT" = "" → fileCfg.port = "9090" →
        (ConfigJson.initConfig env fileCfg).1.port = "9090") ∧
      (env "PORT" = "7000" →
        (ConfigJson.initConfig env fileCfg).1.port = "7000") := by
  intro env fileCfg
  refine ⟨⟨rfl, rfl, rfl, rfl, rfl, rfl, rfl, rfl, rfl, rfl, rfl, rfl⟩, ?_, ?_, ?_, ?_⟩
  · intro key d hne
    simp [readEnvString, hne]
  · intro key d he
    simp [readEnvString, he]
  · intro hport hfile
    simp [ConfigJson.initConfig, ConfigJson.applyEnv, readEnvString, hport, hfile]
  · intro hport
    simp [ConfigJson.initConfig, ConfigJson.applyEnv, readEnvString, hport]

/-- C7 witness: the two port scenarios evaluated at a concrete environment
and file configuration. -/
theorem env_overrides_file_values_witness :
    (ConfigJson.initConfig (fun _ => "")
      { port := "9090", urlRoot := "", postgresDbUrl := "x", publicKey := ""
      , tls := false, proxyForceHttps := false, postmarkKey := ""
      , emailNotificationRecipients := [], githubRepoOwner := "o"
      , githubRepoName := "n", identityServerUrl := "i", userCookieKey := ""
      , certbotResponse := "" }).1.port = "9090" ∧
    (ConfigJson.initConfig (fun k => if k = "PORT" then "7000" else "")
      { port := "9090", urlRoot := "", postgresDbUrl := "x", publicKey := ""
      , tls := false, proxyForceHttps := false, postmarkKey := ""
      , emailNotificationRecipients := [], githubRepoOwner := "o"
      , githubRepoName := "n", identityServerUrl := "i", userCookieKey := ""
      , certbotResponse := "" }).1.port = "7000" :=
  ⟨(env_overrides_file_values (fun _ => "")
      { port := "9090", urlRoot := "", postgresDbUrl := "x", publicKey := ""
      , tls := false, proxyForceHttps := false, postmarkKey := ""
      , emailNotificationRecipients := [], githubRepoOwner := "o"
      , githubRepoName := "n", identityServerUrl := "i", userCookieKey := ""
      , certbotResponse := "" }).2.2.2.1 rfl rfl,
   (env_overrides_file_values (fun k => if k = "PORT" then "7000" else "")
      { port := "9090", urlRoot := "", postgresDbUrl := "x", publicKey := ""
      , tls := false, proxyForceHttps := false, postmarkKey := ""
      , emailNotificationRecipients := [], githubRepoOwner := "o"
      , githubRepoName := "n", identityServerUrl := "i", userCookieKey := ""
      , certbotResponse := "" }).2.2.2.2 (by decide)⟩

/-- The required-field checks after the PORT entry in the config.json variant
never produce the PORT error message, whatever the field values are. -/
theorem requireConfigStrings_json_tail_ne_port (v1 v2 v3 v4 : String) :
    requireConfigStrings
      [ ("POSTGRES_DB_URL", v1), ("GITHUB_REPO_OWNER", v2)
      , ("GITHUB_REPO_NAME", v3), ("IDENTITY_SERVER_URL", v4) ] ≠
      some "PORT env variable or config key must be set" := by
  simp only [requireConfigStrings]
  split_ifs <;> simp

/-- `requireConfigStrings` cannot succeed when the entry sequence contains a
key with an empty value, whatever the order of the entries. -/
theorem requireConfigStrings_ne_none_of_mem_empty
    (l : List (String × String)) (key : String) (hmem : (key, "") ∈ l) :
    requireConfigStrings l ≠ none := by
  induction l with
  | nil => cases hmem
  | cons p rest ih =>
      obtain ⟨k, v⟩ := p
      by_cases hv : v = ""
      · subst hv
        simp [requireConfigStrings]
      · have hmem' : (key, "") ∈ rest := by
          rcases List.mem_cons.mp hmem with h | h
          · exact absurd (congrArg Prod.snd h).symm hv
          · exact h
        simp only [requireConfigStrings, hv, if_false]
        exact ih hmem'

/-- When every empty-valued entry of the sequence carries the same key, the
first failure names that key, whatever the order of the entries. -/
theorem requireConfigStrings_names_unique_empty
    (l : List (String × String)) (key : String) (hmem : (key, "") ∈ l)
    (hother : ∀ p ∈ l, p.2 = "" → p.1 = key) :
    requireConfigStrings l =
      some (key ++ " env variable or config key must be set") := by
  induction l with
  | nil => cases hmem
  | cons p rest ih =>
      obtain ⟨k, v⟩ := p
      by_cases hv : v = ""
      · have hk : k = key := hother (k, v) (List.mem_cons_self _ _) hv
        subst hk
        subst hv
        simp [requireConfigStrings]
      · have hmem' : (key, "") ∈ rest := by
          rcases List.mem_cons.mp hmem with h | h
          · exact absurd (congrArg Prod.snd h).symm hv
          · exact h
        have hother' : ∀ p ∈ rest, p.2 = "" → p.1 = key :=
          fun p hp => hother p (List.mem_cons_of_mem _ hp)
        simp only [requireConfigStrings, hv, if_false]
        exact ih hmem' hother'

/-- After resolution the config.json variant's port is never empty: it was
either non-empty already or defaulted to "8080". -/
theorem ConfigJson.resolve_json_port_ne_empty (env : Env) (fileCfg : ConfigJson.config) :
    (ConfigJson.resolve env fileCfg).port ≠ "" := by
  unfold ConfigJson.resolve
  dsimp only
  split_ifs with hp
  · simp
  · exact hp

/-- The port-defaulting step leaves the other required fields of the
config.json variant at their env-over-file values. -/
theorem ConfigJson.resolve_field_eqs (env : Env) (fileCfg : ConfigJson.config) :
    (ConfigJson.resolve env fileCfg).postgresDbUrl
      = readEnvString env "POSTGRES_DB_URL" fileCfg.postgresDbUrl ∧
    (ConfigJson.resolve env fileCfg).githubRepoOwner
      = readEnvString env "GITHUB_REPO_OWNER" fileCfg.githubRepoOwner ∧
    (ConfigJson.resolve env fileCfg).githubRepoName
      = readEnvString env "GITHUB_REPO_NAME" fileCfg.githubRepoName ∧
    (ConfigJson.resolve env fileCfg).identityServerUrl
      = readEnvString env "IDENTITY_SERVER_URL" fileCfg.identityServerUrl := by
  unfold ConfigJson.resolve ConfigJson.applyEnv
  dsimp only
  split_ifs <;> exact ⟨rfl, rfl, rfl, rfl⟩

/-- After resolution the .env variant's port is never empty. -/
theorem ConfigEnv.resolve_env_port_ne_empty (loaded : ConfigEnv.config) :
    (ConfigEnv.resolve loaded).port ≠ "" := by
  unfold ConfigEnv.resolve
  split_ifs with hp
  · simp
  · exact hp

/-- The port-defaulting step leaves the .env variant's backing-store URL
unchanged. -/
theorem ConfigEnv.resolve_postgres_eq (loaded : ConfigEnv.config) :
    (ConfigEnv.resolve loaded).postgresDbUrl = loaded.postgresDbUrl := by
  unfold ConfigEnv.resolve
  split_ifs <;> rfl

/-- C8 counterexample: the Go runtime iterates the required-field map in an
order of its choosing. With every configuration source empty, the reversed
enumeration of the same map entries — a permutation, hence a possible run —
makes resolution return the error naming IDENTITY_SERVER_URL, not the
backing-store URL field the claim promises. -/
theorem map_order_can_name_other_missing_field :
    ((ConfigJson.requiredEntries (fun _ => "")
        { port := "", urlRoot := "", postgresDbUrl := "", publicKey := ""
        , tls := false, proxyForceHttps := false, postmarkKey := ""
        , emailNotificationRecipients := [], githubRepoOwner := ""
        , githubRepoName := "", identityServerUrl := "", userCookieKey := ""
        , certbotResponse := "" }).reverse.Perm
      (ConfigJson.requiredEntries (fun _ => "")
        { port := "", urlRoot := "", postgresDbUrl := "", publicKey := ""
        , tls := false, proxyForceHttps := false, postmarkKey := ""
        , emailNotificationRecipients := [], githubRepoOwner := ""
        , githubRepoName := "", identityServerUrl := "", userCookieKey := ""
        , certbotResponse := "" })) ∧
    ((ConfigJson.initConfigOrdered (fun _ => "")
        { port := "", urlRoot := "", postgresDbUrl := "", publicKey := ""
        , tls := false, proxyForceHttps := false, postmarkKey := ""
        , emailNotificationRecipients := [], githubRepoOwner := ""
        , githubRepoName := "", identityServerUrl := "", userCookieKey := ""
        , certbotResponse := "" }
        ((ConfigJson.requiredEntries (fun _ => "")
          { port := "", urlRoot := "", postgresDbUrl := "", publicKey := ""
          , tls := false, proxyForceHttps := false, postmarkKey := ""
          , emailNotificationRecipients := [], githubRepoOwner := ""
          , githubRepoName := "", identityServerUrl := "", userCookieKey := ""
          , certbotResponse := "" }).reverse)).2 =
      some "IDENTITY_SERVER_URL env variable or config key must be set") ∧
    ("IDENTITY_SERVER_URL env variable or config key must be set" ≠
      "POSTGRES_DB_URL env variable or config key must be set") :=
  ⟨List.reverse_perm _, by decide, by decide⟩

/-- C8 amended: with the backing-store URL unset in environment and loaded
file, resolution fails — an error, never a successful Config — under every
runtime iteration order of the required-field map; the error names
POSTGRES_DB_URL whenever the remaining required fields (github repo owner
and name, identity-server URL) resolve non-empty, and unconditionally in the
.env variant, whose map holds only PORT and the backing-store URL. -/
theorem missing_postgres_url_fails_any_order :
    (∀ (env : Env) (fileCfg : ConfigJson.config) (order : List (String × String)),
      order.Perm (ConfigJson.requiredEntries env fileCfg) →
      env "POSTGRES_DB_URL" = "" → fileCfg.postgresDbUrl = "" →
      (ConfigJson.initConfigOrdered env fileCfg order).2 ≠ none ∧
      (readEnvString env "GITHUB_REPO_OWNER" fileCfg.githubRepoOwner ≠ "" →
        readEnvString env "GITHUB_REPO_NAME" fileCfg.githubRepoName ≠ "" →
        readEnvString env "IDENTITY_SERVER_URL" fileCfg.identityServerUrl ≠ "" →
        (ConfigJson.initConfigOrdered env fileCfg order).2 =
          some "POSTGRES_DB_URL env variable or config key must be set")) ∧
    (∀ (loaded : ConfigEnv.config) (order : List (String × String)),
      order.Perm (ConfigEnv.requiredEntries loaded) →
      loaded.postgresDbUrl = "" →
      (ConfigEnv.initConfigOrdered loaded order).2 =
        some "POSTGRES_DB_URL env variable or config key must be set") := by
  constructor
  · intro env fileCfg order hperm henv hfile
    have hfe := ConfigJson.resolve_field_eqs env fileCfg
    have hpg : (ConfigJson.resolve env fileCfg).postgresDbUrl = "" := by
      rw [hfe.1]
      simp [readEnvString, henv, hfile]
    have hmem : ("POSTGRES_DB_URL", "") ∈ order := by
      rw [hperm.mem_iff]
      simp [ConfigJson.requiredEntries, hpg]
    constructor
    · exact requireConfigStrings_ne_none_of_mem_empty order "POSTGRES_DB_URL" hmem
    · intro howner hname hid
      apply requireConfigStrings_names_unique_empty order "POSTGRES_DB_URL" hmem
      intro p hp hpempty
      have hp' := hperm.mem_iff.mp hp
      simp only [ConfigJson.requiredEntries, List.mem_cons,
        List.not_mem_nil, or_false] at hp'
      rcases hp' with h | h | h | h | h <;> subst h
      · exact absurd hpempty (ConfigJson.resolve_json_port_ne_empty env fileCfg)
      · rfl
      · exact absurd (hfe.2.1.symm.trans hpempty) howner
      · exact absurd (hfe.2.2.1.symm.trans hpempty) hname
      · exact absurd (hfe.2.2.2.symm.trans hpempty) hid
  · intro loaded order hperm hpgl
    have hpg : (ConfigEnv.resolve loaded).postgresDbUrl = "" := by
      rw [ConfigEnv.resolve_postgres_eq]
      exact hpgl
    have hmem : ("POSTGRES_DB_URL", "") ∈ order := by
      rw [hperm.mem_iff]
      simp [ConfigEnv.requiredEntries, hpg]
    apply requireConfigStrings_names_unique_empty order "POSTGRES_DB_URL" hmem
    intro p hp hpempty
    have hp' := hperm.mem_iff.mp hp
    simp only [ConfigEnv.requiredEntries, List.mem_cons,
      List.not_mem_nil, or_false] at hp'
    rcases hp' with h | h <;> subst h
    · exact absurd hpempty (ConfigEnv.resolve_env_port_ne_empty loaded)
    · rfl

/-- C8 amended witness: with the backing-store URL empty everywhere, the
other required fields set in the environment, and the map enumerated in
reversed order, resolution returns the POSTGRES_DB_URL error. -/
theorem missing_postgres_url_fails_any_order_witness :
    (ConfigJson.initConfigOrdered
      (fun k => if k = "GITHUB_REPO_OWNER" then "o"
        else if k = "GITHUB_REPO_NAME" then "n"
        else if k = "IDENTITY_SERVER_URL" then "i" else "")
      { port := "8081", urlRoot := "", postgresDbUrl := "", publicKey := ""
      , tls := false, proxyForceHttps := false, postmarkKey := ""
      , emailNotificationRecipients := [], githubRepoOwner := ""
      , githubRepoName := "", identityServerUrl := "", userCookieKey := ""
      , certbotResponse := "" }
      ((ConfigJson.requiredEntries
        (fun k => if k = "GITHUB_REPO_OWNER" then "o"
          else if k = "GITHUB_REPO_NAME" then "n"
          else if k = "IDENTITY_SERVER_URL" then "i" else "")
        { port := "8081", urlRoot := "", postgresDbUrl := "", publicKey := ""
        , tls := false, proxyForceHttps := false, postmarkKey := ""
        , emailNotificationRecipients := [], githubRepoOwner := ""
        , githubRepoName := "", identityServerUrl := "", userCookieKey := ""
        , certbotResponse := "" }).reverse)).2 =
      some "POSTGRES_DB_URL env variable or config key must be set" :=
  ((missing_postgres_url_fails_any_order.1
      (fun k => if k = "GITHUB_REPO_OWNER" then "o"
        else if k = "GITHUB_REPO_NAME" then "n"
        else if k = "IDENTITY_SERVER_URL" then "i" else "")
      { port := "8081", urlRoot := "", postgresDbUrl := "", publicKey := ""
      , tls := false, proxyForceHttps := false, postmarkKey := ""
      , emailNotificationRecipients := [], githubRepoOwner := ""
      , githubRepoName := "", identityServerUrl := "", userCookieKey := ""
      , certbotResponse := "" }
      ((ConfigJson.requiredEntries
        (fun k => if k = "GITHUB_REPO_OWNER" then "o"
          else if k = "GITHUB_REPO_NAME" then "n"
          else if k = "IDENTITY_SERVER_URL" then "i" else "")
        { port := "8081", urlRoot := "", postgresDbUrl := "", publicKey := ""
        , tls := false, proxyForceHttps := false, postmarkKey := ""
        , emailNotificationRecipients := [], githubRepoOwner := ""
        , githubRepoName := "", identityServerUrl := "", userCookieKey := ""
        , certbotResponse := "" }).reverse)
      (List.reverse_perm _) (by decide) rfl).2
    (by decide) (by decide) (by decide))

/-- C10: because the port is defaulted to "8080" before the required-field
validation runs, the resolved port is never empty and resolution never
returns the error naming PORT, for every environment and every loaded file
configuration, in both variants. -/
theorem port_validation_unreachable :
    (∀ (env : Env) (fileCfg : ConfigJson.config),
      (ConfigJson.initConfig env fileCfg).1.port ≠ "" ∧
      (ConfigJson.initConfig env fileCfg).2 ≠
        some "PORT env variable or config key must be set") ∧
    (∀ loaded : ConfigEnv.config,
      (ConfigEnv.initConfig loaded).1.port ≠ "" ∧
      (ConfigEnv.initConfig loaded).2 ≠
        some "PORT env variable or config key must be set") := by
  constructor
  · intro env fileCfg
    simp only [ConfigJson.initConfig]
    split_ifs with hp
    · refine ⟨by simp, ?_⟩
      simpa [requireConfigStrings] using
        requireConfigStrings_json_tail_ne_port _ _ _ _
    · refine ⟨by simpa using hp, ?_⟩
      simpa [requireConfigStrings, hp] using
        requireConfigStrings_json_tail_ne_port _ _ _ _
  · intro loaded
    simp only [ConfigEnv.initConfig]
    split_ifs with hp
    · refine ⟨by simp, ?_⟩
      simp only [requireConfigStrings]
      split_ifs <;> simp_all
    · refine ⟨by simpa using hp, ?_⟩
      simp only [requireConfigStrings, hp]
      split_ifs <;> simp_all

/-- C10 witness: the empty environment and zero file configuration resolve to
port "8080" and an error that names POSTGRES_DB_URL, not PORT. -/
theorem port_validation_unreachable_witness :
    (ConfigJson.initConfig (fun _ => "")
      { port := "", urlRoot := "", postgresDbUrl := "", publicKey := ""
      , tls := false, proxyForceHttps := false, postmarkKey := ""
      , emailNotificationRecipients := [], githubRepoOwner := ""
      , githubRepoName := "", identityServerUrl := "", userCookieKey := ""
      , certbotResponse := "" }).1.port ≠ "" :=
  (port_validation_unreachable.1 (fun _ => "")
    { port := "", urlRoot := "", postgresDbUrl := "", publicKey := ""
    , tls := false, proxyForceHttps := false, postmarkKey := ""
    , emailNotificationRecipients := [], githubRepoOwner := ""
    , githubRepoName := "", identityServerUrl := "", userCookieKey := ""
    , certbotResponse := "" }).1

end TaskMgmt
